import Mathlib

/-!
Shallow embedding of the `download-manager` crate
(`src/download-manager/src/{command.rs, db.rs, manifest.rs}`), together with
theorems settling the specification claims about it.

Conventions:
- Machine-level async effects (tokio `select!`, channel receives, timer ticks)
  are embedded as explicit event traces: the trace is the scheduler's choice
  sequence, and each loop is a structurally recursive function over the trace.
- `camino::Utf8PathBuf` is embedded as `String` with Unix `Path::join`
  semantics.
- `url::Url` is embedded by the observations the code makes of it: its
  serialized form and the result of `Url::path_segments()` (`none` exactly for
  cannot-be-a-base URLs; for URLs with a host the segment list is the
  '/'-separated split of the path after the leading '/', always nonempty,
  possibly containing empty strings).
-/

namespace DownloadManager

/-! ## Paths (camino `Utf8Path` / `Utf8PathBuf`, Unix semantics) -/

/-- A UTF-8 path, as in the `camino` crate. -/
abbrev Utf8Path := String

/-- `Utf8Path::is_absolute` on Unix: the path starts with `/`. -/
def Utf8Path.isAbsolute (p : Utf8Path) : Bool :=
  decide (p.data.head? = some '/')

/-- Whether the path ends with the `/` separator. -/
def Utf8Path.endsWithSep (p : Utf8Path) : Bool :=
  decide (p.data.getLast? = some '/')

/-- `Utf8PathBuf::join` (which delegates to `std::path::PathBuf::push`, Unix):
an absolute argument replaces the whole path; otherwise a `/` separator is
inserted when the base is nonempty and does not already end with one, and the
argument is appended (an empty argument thus yields a trailing separator). -/
def Utf8Path.join (base child : Utf8Path) : Utf8Path :=
  if Utf8Path.isAbsolute child then child
  else if base = "" then child
  else if Utf8Path.endsWithSep base then base ++ child
  else base ++ "/" ++ child

/-! ## URLs (`url::Url`, by the observations `command.rs` makes) -/

/-- A parsed absolute URL. `pathSegments` is the result of
`Url::path_segments()`: `none` for cannot-be-a-base URLs (e.g. `mailto:`),
otherwise the `/`-separated segments of the path after its leading `/`
(always at least one element, possibly empty strings). -/
structure Url where
  raw : String
  pathSegments : Option (List String)
  deriving DecidableEq, Repr

/-! ## Manifest (`manifest.rs`) -/

/-- `ManifestEntry`: a required `url` and an optional `file_name`
(`#[serde(default)]`, used verbatim as the destination file name). -/
structure ManifestEntry where
  url : Url
  file_name : Option String
  deriving DecidableEq, Repr

/-! ## Download state (`db.rs::DownloadState`) -/

inductive DownloadState where
  | Downloading
  | Completed
  | Failed
  | Interrupted
  deriving DecidableEq, Repr

/-! ## Worker status and output (`command.rs` lines 317-329) -/

inductive WorkerStatus where
  | Completed
  | Cancelled
  deriving DecidableEq, Repr

/-! ## Destination resolution (`command.rs::worker_fn`, lines 176-184)

```rust
let path = entry.file_name.unwrap_or_else(|| {
    entry.url.path_segments()
        .and_then(|segments| segments.last())
        .unwrap_or("index.html")
        .to_string()
});
let out_path = out_dir.join(path);
```
-/

/-- The file name computed by `worker_fn`: the `file_name` override if
present, else the last path segment of the URL (`Iterator::last`, which may be
the empty string), else `"index.html"` when `path_segments()` is `None`. -/
def resolveFileName (entry : ManifestEntry) : String :=
  entry.file_name.getD ((entry.url.pathSegments.bind List.getLast?).getD "index.html")

/-- `out_path` in `worker_fn`: the destination path actually handed to
`worker_impl` (and hence to `download_url_to`'s `File::create`). -/
def workerDestination (out_dir : Utf8Path) (entry : ManifestEntry) : Utf8Path :=
  Utf8Path.join out_dir (resolveFileName entry)

/-! ## Worker output (`command.rs::worker_fn`, lines 186-193)

```rust
let result = worker_impl(client, db_handle, entry.url.clone(), &out_path, receiver).await;
WorkerOutput { url: entry.url, path: out_dir, result }
```
Note that the `path` field of the returned struct is set to `out_dir`,
not to the computed `out_path`. -/

/-- Errors a worker can report (the `eyre::Report` cases relevant here). -/
inductive WorkerError where
  | dbDead
  | transfer (msg : String)
  deriving DecidableEq, Repr

/-- `WorkerOutput` (`command.rs` lines 317-323). -/
structure WorkerOutput where
  url : Url
  path : Utf8Path
  result : Except WorkerError WorkerStatus
  deriving Repr

/-- `worker_fn`, with the result of `worker_impl` supplied as a parameter
(the transfer itself is embedded separately): it resolves the file name,
joins it onto `out_dir` to obtain `out_path`, runs `worker_impl` against
`out_path`, and returns `WorkerOutput { url: entry.url, path: out_dir,
result }` — the struct's `path` field is `out_dir`, as in the source. -/
def worker_fn (entry : ManifestEntry) (out_dir : Utf8Path)
    (result : Except WorkerError WorkerStatus) : WorkerOutput :=
  { url := entry.url
    path := out_dir
    result := result }

/-! ## The worker operation (`command.rs::worker_impl`, lines 209-233)

The `op` async block:
```rust
db_handle.update_state(url.clone(), DownloadState::Downloading).await?;
let res = download_url_to(client, url.clone(), out_path, cancel_receiver).await;
match res {
    Ok(WorkerStatus::Completed) => { db_handle.update_state(.., Completed).await?; }
    Ok(WorkerStatus::Cancelled) => { db_handle.update_state(.., Interrupted).await?; }
    Err(_) => { db_handle.update_state(.., Failed).await?; }
}
res
```
The two `update_state` calls can each fail with `DbTaskDead` (when the actor's
queue is closed); success/failure of each call is supplied as an oracle, and
`download_url_to`'s result as a parameter. -/

/-- Whether each of the worker's two `update_state` calls succeeds
(`false` models `DbTaskDead`: the database actor is unreachable). -/
structure DbOracle where
  downloadingOk : Bool
  terminalOk : Bool
  deriving DecidableEq, Repr

/-- An externally visible action of the worker's `op` block, in order:
a database write attempt (with its success bit) or the transfer itself. -/
inductive WorkerAction where
  | dbWrite (s : DownloadState) (ok : Bool)
  | transfer
  deriving DecidableEq, Repr

/-- The terminal state `op` records for a given transfer result:
`Completed` on success, `Interrupted` on cooperative cancellation,
`Failed` on any transfer error. -/
def terminalState : Except WorkerError WorkerStatus → DownloadState
  | .ok .Completed => .Completed
  | .ok .Cancelled => .Interrupted
  | .error _ => .Failed

/-- The worker `op` block: the ordered list of actions it performs and its
return value. A failed `Downloading` write returns `DbTaskDead` via `?` before
the transfer runs; a failed terminal write returns `DbTaskDead` via `?`,
discarding the transfer's own result; otherwise `res` itself is returned. -/
def worker_op (db : DbOracle) (res : Except WorkerError WorkerStatus) :
    List WorkerAction × Except WorkerError WorkerStatus :=
  if db.downloadingOk then
    if db.terminalOk then
      ([.dbWrite .Downloading true, .transfer, .dbWrite (terminalState res) true], res)
    else
      ([.dbWrite .Downloading true, .transfer, .dbWrite (terminalState res) false],
       .error .dbDead)
  else
    ([.dbWrite .Downloading false], .error .dbDead)

/-! ## The worker's cancellation select loop (`command.rs::worker_impl`,
lines 203-254)

```rust
let (cancel_sender, cancel_receiver) = oneshot::channel();
let mut cancel_sender = Some(cancel_sender);
...
loop {
    tokio::select! {
        res = &mut op => { return res; }
        Ok(_) = receiver.recv() => {
            if let Some(sender) = cancel_sender.take() {
                _ = sender.send(());
            }
        }
    }
}
```
The trace lists, in scheduler order, which select branch fires at each
iteration. `opDone` is the completion of `op`; `cancelMsg` is a broadcast
cancellation notification delivered on `receiver`. -/

inductive WorkerEvt where
  | opDone
  | cancelMsg
  deriving DecidableEq, Repr

/-- Result of running the worker's select loop on a trace:
`avail` is whether `cancel_sender` is still `Some`, `fires` counts executions
of `sender.send(())` (the one-shot cancellation trigger; its error, if any, is
discarded by `_ =`), `returned` is whether the loop has returned. Events after
`opDone` are never processed: the loop has already returned. An exhausted
trace with no `opDone` leaves the loop still waiting (`returned = false`). -/
structure CancelLoopResult where
  avail : Bool
  fires : Nat
  returned : Bool
  deriving DecidableEq, Repr

/-- The select loop of `worker_impl`, as a function of the event trace. -/
def workerCancelLoop : List WorkerEvt → Bool → Nat → CancelLoopResult
  | [], avail, fires => ⟨avail, fires, false⟩
  | .opDone :: _, avail, fires => ⟨avail, fires, true⟩
  | .cancelMsg :: rest, avail, fires =>
    if avail then workerCancelLoop rest false (fires + 1)
    else workerCancelLoop rest avail fires

/-- `worker_impl`'s loop from its initial state: `cancel_sender` is `Some`,
no trigger has fired. -/
def worker_impl_loop (evs : List WorkerEvt) : CancelLoopResult :=
  workerCancelLoop evs true 0

/-! ## The database actor (`db.rs::DatabaseTask::run`, lines 23-38)

```rust
loop {
    match self.receiver.recv().await {
        Some(DatabaseMessage::UpdateState(url, state, sender)) => {
            tracing::info!(url = %url, state = ?state, "updating state in database");
            // This is where you'd write to a file if desired.
            _ = sender.send(());
        }
        None => {
            tracing::info!("no more senders, database task shutting down");
            break;
        }
    }
}
```
The channel is embedded as the list of messages received before `recv`
returns `None` (i.e. before every `DbWorkerHandle` sender has been dropped).
The loop body logs the update and signals the acknowledgement; it performs no
write to any store, so the actor's retained mapping (threaded through below as
`store`) passes through every iteration unchanged. -/

/-- `DatabaseMessage::UpdateState(url, state, sender)`; the acknowledgement
`oneshot::Sender<()>` is implicit in the `acks` count of the result. -/
structure DatabaseMessage where
  url : Url
  state : DownloadState
  deriving DecidableEq, Repr

/-- Observable outcome of running the database actor to termination. -/
structure DbRunResult where
  log : List (Url × DownloadState)
  acks : Nat
  store : List (Url × DownloadState)
  terminated : Bool
  deriving DecidableEq, Repr

/-- `DatabaseTask::run`: processes each received message by logging it and
signalling its acknowledgement — the body mutates no mapping, so `store` is
returned as it was — and terminates (breaks) exactly when the channel reports
that all senders have been dropped (end of the message list). -/
def DatabaseTask.run (store : List (Url × DownloadState)) :
    List DatabaseMessage → DbRunResult
  | [] => ⟨[], 0, store, true⟩
  | m :: rest =>
    let r := DatabaseTask.run store rest
    ⟨(m.url, m.state) :: r.log, r.acks + 1, r.store, r.terminated⟩

/-- The spec's State Store Actor, modelled from the spec's words for
comparison: it "owns a mapping from download identifier to current state" and,
for every update request, "appl[ies] it to the in-memory mapping and signal[s]
the acknowledgement", terminating when all senders are dropped. -/
def specStateStoreRun (store : List (Url × DownloadState)) :
    List DatabaseMessage → DbRunResult
  | [] => ⟨[], 0, store, true⟩
  | m :: rest =>
    let r := specStateStoreRun ((m.url, m.state) :: store.filter (fun p => p.1 ≠ m.url)) rest
    ⟨(m.url, m.state) :: r.log, r.acks + 1, r.store, r.terminated⟩

/-- Lookup in the actor's retained mapping. -/
def storeLookup (store : List (Url × DownloadState)) (u : Url) :
    Option DownloadState :=
  (store.find? (fun p => p.1 = u)).map (·.2)

/-! ## The transfer engine (`command.rs::download_url_to`, lines 257-315)

Setup:
```rust
let response = client.get(url.clone()).send().await?;
let mut stream = response.bytes_stream();
let mut f = fs_err::tokio::File::create(path).await?;   // create/truncate
let start = Instant::now();
let mut interval = tokio::time::interval(Duration::from_secs(1));
interval.tick().await;                                   // first, immediate tick
let mut bytes_downloaded = 0;
```
Main loop: a `tokio::select!` over (1) `stream.next()` — a chunk
(`bytes_downloaded += bytes.len(); f.write_all_buf(&mut bytes).await?`), a
stream error (`return Err(..)`), or end-of-data (`return Ok(Completed)`);
(2) `interval.tick()` — log elapsed time and `bytes_downloaded`, keep
looping; (3) the cancellation token — `f.shutdown().await?; return
Ok(Cancelled)`.

A byte is a `Nat`; file writes and the final `shutdown` are modelled as
succeeding (their `?` error paths are not exercised by any claim). The
interval's ticks are numbered from 0 (the immediate tick); since the period is
the constant 1 second, the elapsed wall-clock time at tick `k` is `k`
seconds. -/

/-- `Duration::from_secs(1)`: the fixed period of the progress interval. -/
def intervalPeriodSecs : Nat := 1

/-- One cause for the transfer loop to wake, in scheduler order. -/
inductive DlEvent where
  | chunk (bytes : List Nat)
  | chunkErr (msg : String)
  | eof
  | tick
  | cancel
  deriving DecidableEq, Repr

/-- The transfer engine's mutable state inside the loop. `fileContents` is
what has been written to the destination file handle; `progressLog` records,
per interval tick handled in the loop, the tick's number and the value of
`bytes_downloaded` at that moment; `flushed` is whether `f.shutdown()` has
been called. -/
structure DlState where
  fileContents : List Nat
  bytesDownloaded : Nat
  progressLog : List (Nat × Nat)
  nextTick : Nat
  flushed : Bool
  deriving DecidableEq, Repr

/-- The `select!` loop of `download_url_to` over an event trace: returns the
final state and `some` result when a terminal event was reached (`none` when
the trace is exhausted with the loop still running). -/
def dlLoop : List DlEvent → DlState → DlState × Option (Except String WorkerStatus)
  | [], s => (s, none)
  | .chunk b :: rest, s =>
    dlLoop rest { s with bytesDownloaded := s.bytesDownloaded + b.length,
                         fileContents := s.fileContents ++ b }
  | .chunkErr msg :: _, s => (s, some (.error msg))
  | .eof :: _, s => (s, some (.ok .Completed))
  | .tick :: rest, s =>
    dlLoop rest { s with progressLog := s.progressLog ++ [(s.nextTick, s.bytesDownloaded)],
                         nextTick := s.nextTick + 1 }
  | .cancel :: _, s => ({ s with flushed := true }, some (.ok .Cancelled))

/-- `download_url_to` after a successful request: `File::create` truncates, so
whatever the destination file held before (`priorFile`) is discarded and the
handle starts empty; the interval's immediate tick (number 0) is consumed by
the setup's `interval.tick().await`, so the first tick the loop can see is
number 1 (at elapsed time `1 * intervalPeriodSecs` seconds). -/
def download_url_to (priorFile : List Nat) (evs : List DlEvent) :
    DlState × Option (Except String WorkerStatus) :=
  let _ := priorFile
  dlLoop evs { fileContents := [], bytesDownloaded := 0, progressLog := [],
               nextTick := 1, flushed := false }

/-- The events of a trace that the loop actually handles: everything up to
and including the first terminal event (`chunkErr`, `eof` or `cancel`). -/
def dlProcessed : List DlEvent → List DlEvent
  | [] => []
  | .chunk b :: rest => .chunk b :: dlProcessed rest
  | .tick :: rest => .tick :: dlProcessed rest
  | .chunkErr msg :: _ => [.chunkErr msg]
  | .eof :: _ => [.eof]
  | .cancel :: _ => [.cancel]

/-- The bytes carried by the chunk events of a trace, concatenated. -/
def dlChunkBytes : List DlEvent → List Nat
  | [] => []
  | .chunk b :: rest => b ++ dlChunkBytes rest
  | _ :: rest => dlChunkBytes rest

/-- The first terminal event of a trace, if any. -/
def dlTerminal : List DlEvent → Option DlEvent
  | [] => none
  | .chunk _ :: rest => dlTerminal rest
  | .tick :: rest => dlTerminal rest
  | e :: _ => some e

/-- The result a terminal event produces. -/
def dlResultOf : Option DlEvent → Option (Except String WorkerStatus)
  | some (.chunkErr msg) => some (.error msg)
  | some .eof => some (.ok .Completed)
  | some .cancel => some (.ok .Cancelled)
  | _ => none

/-- The progress observations a trace generates, given the number of the next
interval tick and the bytes downloaded so far. -/
def dlLogOf : List DlEvent → Nat → Nat → List (Nat × Nat)
  | [], _, _ => []
  | .chunk b :: rest, t, bytes => dlLogOf rest t (bytes + b.length)
  | .tick :: rest, t, bytes => (t, bytes) :: dlLogOf rest (t + 1) bytes
  | _ :: _, _, _ => []

/-- The number of interval ticks the loop handles before a terminal event. -/
def dlTickCount : List DlEvent → Nat
  | [] => 0
  | .chunk _ :: rest => dlTickCount rest
  | .tick :: rest => dlTickCount rest + 1
  | _ :: _ => 0

/-! ## The orchestrator (`command.rs::DownloadArgs::exec`, lines 110-162)

```rust
let mut failed = Vec::new();
loop {
    tokio::select! {
        v = join_set.join_next() => {
            match v {
                Some(Ok(output)) => { ... Err => failed.push(output.url) ... }
                Some(Err(error)) => { /* log only */ }
                None => { break; }
            }
        }
        Some(_) = ctrl_c_stream.recv() => {
            sender.send(CancelMessage::new(CancelKind::Interrupt))?;
        }
    }
}
db_task_handle.await.wrap_err("database task panicked")?;
Ok(())
```
The trace lists which select branch fires, in scheduler order. `join_next`
yields `Some` while tasks remain in the join set and `None` once it is empty;
a worker's `broadcast::Receiver` lives inside its future and is dropped when
the future completes, so `sender.send(..)` fails — and `?` returns the error
from `exec` early, skipping the `db_task_handle.await` — exactly when no
pending workers remain. Pending workers are counted; `workerDone out` is
`join_next() == Some(Ok(out))`, `workerPanic` is `Some(Err(_))` (the task is
removed from the set and only logged). -/

inductive OrchEvent where
  | workerDone (out : WorkerOutput)
  | workerPanic
  | interrupt
  deriving Repr

/-- How the orchestrator's wait loop ended. -/
inductive OrchResult where
  /-- `join_next` returned `None`: the loop broke; `failed` is the `failed`
  vector, `sent` the number of cancellation signals published; the code then
  awaits the database task and returns `Ok(())`. -/
  | normal (failed : List Url) (sent : Nat)
  /-- `sender.send(..)` failed (no live receivers) and `?` returned the error
  from `exec` before the loop broke and before the database task was
  awaited. -/
  | sendErr (failed : List Url) (sent : Nat)
  /-- The trace ended with workers still pending: the loop is still waiting. -/
  | stillWaiting (failed : List Url) (sent : Nat)
  deriving Repr

/-- The orchestrator's select loop: `pending` counts workers still in the
join set (each holding a live broadcast receiver), `failed` accumulates the
URLs of outputs whose `result` was an `Err`, `sent` counts successful
broadcast publishes. When `pending = 0`, an interrupt event makes the
broadcast send fail (no receivers) and `exec` return early; otherwise
`join_next` returns `None` and the loop breaks. -/
def orchLoop : List OrchEvent → Nat → List Url → Nat → OrchResult
  | evs, 0, failed, sent =>
    match evs with
    | .interrupt :: _ => .sendErr failed sent
    | _ => .normal failed sent
  | [], _ + 1, failed, sent => .stillWaiting failed sent
  | .workerDone out :: rest, pending + 1, failed, sent =>
    match out.result with
    | .ok _ => orchLoop rest pending failed sent
    | .error _ => orchLoop rest pending (failed ++ [out.url]) sent
  | .workerPanic :: rest, pending + 1, failed, sent =>
    orchLoop rest pending failed sent
  | .interrupt :: rest, pending + 1, failed, sent =>
    orchLoop rest (pending + 1) failed (sent + 1)

/-- The value `DownloadArgs::exec` returns for a finished run, as a function
of how the wait loop ended: on a normal break it awaits the database task and
returns `Ok(())`; on a failed broadcast send it returns the send error. -/
def execReturn : OrchResult → Except String Unit
  | .normal _ _ => .ok ()
  | .sendErr _ _ => .error "channel closed"
  | .stillWaiting _ _ => .ok ()

/-- Whether `exec` reaches the `db_task_handle.await` line for a finished
run (it does not when `sender.send(..)?` returned early). -/
def execAwaitsDb : OrchResult → Bool
  | .normal _ _ => true
  | .sendErr _ _ => false
  | .stillWaiting _ _ => false

/-- The `failed` vector at the end of the wait loop. -/
def orchFailed : OrchResult → List Url
  | .normal f _ => f
  | .sendErr f _ => f
  | .stillWaiting f _ => f

/-- The number of cancellation signals published by the end of the loop. -/
def orchSent : OrchResult → Nat
  | .normal _ s => s
  | .sendErr _ s => s
  | .stillWaiting _ s => s

/-- `DownloadArgs::exec` around its wait loop: one worker is spawned per
manifest entry (so the join set starts with `entries.length` tasks), the loop
runs over the scheduler trace, and the function's return value is `Ok(())`
after awaiting the database task on the normal path, or the propagated
broadcast-send error on the early path. -/
def DownloadArgs.exec (entries : List ManifestEntry) (evs : List OrchEvent) :
    Except String Unit :=
  execReturn (orchLoop evs entries.length [] 0)

/-- Whether each interrupt in the trace arrives while at least one worker is
still pending (i.e. while at least one broadcast receiver is still live): the
condition under which every `sender.send(..)` in the loop succeeds. -/
def interruptsLive : List OrchEvent → Nat → Bool
  | [], _ => true
  | .interrupt :: rest, pending => pending ≠ 0 && interruptsLive rest pending
  | .workerDone _ :: rest, pending => interruptsLive rest (pending - 1)
  | .workerPanic :: rest, pending => interruptsLive rest (pending - 1)

/-- The number of join-set completions (`Some(Ok(_))` or `Some(Err(_))`) in
the trace. -/
def orchDoneCount : List OrchEvent → Nat
  | [] => 0
  | .workerDone _ :: rest => orchDoneCount rest + 1
  | .workerPanic :: rest => orchDoneCount rest + 1
  | .interrupt :: rest => orchDoneCount rest

/-- The number of interrupt notifications in the trace. -/
def orchInterruptCount : List OrchEvent → Nat
  | [] => 0
  | .interrupt :: rest => orchInterruptCount rest + 1
  | _ :: rest => orchInterruptCount rest

/-- The URLs of the worker outputs whose `result` was an `Err`, among the
first `n` join-set completions of the trace (the completions the loop
processes before it breaks). -/
def orchFailedUrls : List OrchEvent → Nat → List Url
  | _, 0 => []
  | [], _ + 1 => []
  | .workerDone out :: rest, n + 1 =>
    match out.result with
    | .ok _ => orchFailedUrls rest n
    | .error _ => out.url :: orchFailedUrls rest n
  | .workerPanic :: rest, n + 1 => orchFailedUrls rest n
  | .interrupt :: rest, n + 1 => orchFailedUrls rest (n + 1)

/-! ## Concrete values used in counterexamples and witnesses -/

/-- `https://example.com/a/foo.txt`: `path_segments()` yields `a`, `foo.txt`. -/
def urlFooTxt : Url := ⟨"https://example.com/a/foo.txt", some ["a", "foo.txt"]⟩

/-- `https://example.com/`: the `url` crate normalizes an empty path on a
special-scheme URL to `/`, so `path_segments()` yields one empty segment. -/
def urlRoot : Url := ⟨"https://example.com/", some [""]⟩

/-- `https://example.com/a/`: `path_segments()` yields `a` and an empty
trailing segment; `Iterator::last` picks the empty one. -/
def urlTrailingSlash : Url := ⟨"https://example.com/a/", some ["a", ""]⟩

/-! # Theorems settling the claims -/

/-- C1: the claim says every `WorkerOutput` contains the destination path the
file was written to (`out_dir` joined with the resolved file name). The code
instead stores `out_dir` itself in the `path` field (`command.rs` line 190),
contradicting `worker_fn`'s own doc comment ("the path it downloaded to"):
for the manifest entry `https://example.com/a/foo.txt` with no override and
output directory `/out`, the file is written to `/out/foo.txt` but the
outcome's `path` field is `/out`. -/
theorem C1_outcome_path_is_out_dir_not_destination :
    (worker_fn ⟨urlFooTxt, none⟩ "/out" (.ok .Completed)).path = "/out" ∧
    workerDestination "/out" ⟨urlFooTxt, none⟩ = "/out/foo.txt" ∧
    (worker_fn ⟨urlFooTxt, none⟩ "/out" (.ok .Completed)).path ≠
      workerDestination "/out" ⟨urlFooTxt, none⟩ := by
  refine ⟨rfl, by decide, by decide⟩

/-- C2 counterexample: the claim says a URL whose path yields no (non-empty)
segment resolves to `out_dir/index.html`. For `https://example.com/` — whose
normalized path is `/`, i.e. one empty segment — `Iterator::last` returns the
empty string (`Some("")`, not `None`), so `unwrap_or("index.html")` never
fires: the destination is `out` joined with `""` (= `"out/"`), not
`out/index.html`. -/
theorem C2_empty_segment_not_index_html :
    ManifestEntry.file_name ⟨urlRoot, none⟩ = none ∧
    workerDestination "out" ⟨urlRoot, none⟩ = "out/" ∧
    workerDestination "out" ⟨urlRoot, none⟩ ≠ Utf8Path.join "out" "index.html" := by
  refine ⟨rfl, by decide, by decide⟩

/-- C2 (amended): with an override the destination is `out_dir/override`;
without one it is `out_dir` joined with the last path segment of the URL —
last, not last non-empty: the segment may be the empty string — and
`index.html` is used only when the URL yields no last segment at all
(`path_segments()` returned `None`, i.e. a cannot-be-a-base URL). -/
theorem C2_destination_resolution (out_dir : Utf8Path) (e : ManifestEntry) :
    (∀ n, e.file_name = some n →
      workerDestination out_dir e = Utf8Path.join out_dir n) ∧
    (∀ segs lastSeg, e.file_name = none → e.url.pathSegments = some segs →
      segs.getLast? = some lastSeg →
      workerDestination out_dir e = Utf8Path.join out_dir lastSeg) ∧
    (e.file_name = none → e.url.pathSegments.bind List.getLast? = none →
      workerDestination out_dir e = Utf8Path.join out_dir "index.html") := by
  refine ⟨?_, ?_, ?_⟩
  · intro n hn
    simp [workerDestination, resolveFileName, hn]
  · intro segs lastSeg hn hsegs hlast
    simp [workerDestination, resolveFileName, hn, hsegs, hlast]
  · intro hn hbind
    simp [workerDestination, resolveFileName, hn, hbind]

/-- Witness for C2: the URL `https://example.com/a/` with no override
resolves to `out` joined with the empty segment. -/
theorem C2_destination_resolution_witness :
    workerDestination "out" ⟨urlTrailingSlash, none⟩ = Utf8Path.join "out" "" :=
  (C2_destination_resolution "out" ⟨urlTrailingSlash, none⟩).2.1
    ["a", ""] "" rfl rfl rfl

/-- C9: a `file_name` override that is an absolute path replaces `out_dir`
entirely — `Utf8PathBuf::join` with an absolute argument discards the base —
so the resolved destination is the verbatim override, outside the output
directory; no sanitization or confinement is applied. -/
theorem C9_absolute_override_escapes_out_dir (out_dir : Utf8Path)
    (e : ManifestEntry) (n : String) (hn : e.file_name = some n)
    (habs : Utf8Path.isAbsolute n = true) :
    workerDestination out_dir e = n := by
  simp [workerDestination, resolveFileName, hn, Utf8Path.join, habs]

/-- Witness for C9: the override `/etc/passwd` makes the destination
`/etc/passwd`, not a file under the output directory `/srv/out`. -/
theorem C9_absolute_override_escapes_out_dir_witness :
    workerDestination "/srv/out" ⟨urlFooTxt, some "/etc/passwd"⟩ = "/etc/passwd" :=
  C9_absolute_override_escapes_out_dir "/srv/out" ⟨urlFooTxt, some "/etc/passwd"⟩
    "/etc/passwd" rfl (by decide)

/-- C4: when both database writes succeed, the worker `op` issues exactly the
update sequence `[Downloading, T]` — `Downloading` written (and acknowledged:
`update_state` awaits the ack) before the transfer runs, then exactly one
terminal state `T` (`Completed` on success, `Interrupted` on cooperative
cancellation, `Failed` on any transfer error) and nothing after it — and
returns the transfer's result unchanged. -/
theorem C4_state_sequence_exactly_downloading_then_terminal
    (res : Except WorkerError WorkerStatus) :
    (worker_op ⟨true, true⟩ res).1 =
      [.dbWrite .Downloading true, .transfer,
       .dbWrite (terminalState res) true] ∧
    (worker_op ⟨true, true⟩ res).2 = res ∧
    terminalState (.ok .Completed) = .Completed ∧
    terminalState (.ok .Cancelled) = .Interrupted ∧
    (∀ e, terminalState (.error e) = .Failed) := by
  refine ⟨rfl, rfl, rfl, rfl, fun e => rfl⟩

/-- C10: if the transfer fails and the terminal (`Failed`) write also fails,
`?` propagates `DbTaskDead` — the state-store error replaces the original
transfer error in the worker's outcome; and if the `Downloading` write fails,
`op` aborts before the transfer: its action list is the single failed write,
containing no transfer, and its result is the state-store error. -/
theorem C10_db_error_replaces_transfer_error
    (e : String) (t : Bool) (res : Except WorkerError WorkerStatus) :
    (worker_op ⟨true, false⟩ (.error (.transfer e))).2 = .error .dbDead ∧
    (worker_op ⟨true, false⟩ (.error (.transfer e))).2 ≠
      .error (.transfer e) ∧
    (worker_op ⟨false, t⟩ res).1 = [.dbWrite .Downloading false] ∧
    WorkerAction.transfer ∉ (worker_op ⟨false, t⟩ res).1 ∧
    (worker_op ⟨false, t⟩ res).2 = .error .dbDead := by
  refine ⟨rfl, by simp [worker_op], by simp [worker_op], by simp [worker_op],
    by simp [worker_op]⟩

/-- Once `cancel_sender` has been taken (`avail = false`), later cancellation
notifications never fire the trigger again. -/
theorem workerCancelLoop_taken (evs : List WorkerEvt) (f : Nat) :
    (workerCancelLoop evs false f).fires = f := by
  induction evs with
  | nil => rfl
  | cons e rest ih => cases e <;> simp [workerCancelLoop, ih]

/-- From any state the loop fires the trigger at most once more than it
already has. -/
theorem workerCancelLoop_fires_le (evs : List WorkerEvt) (f : Nat) :
    (workerCancelLoop evs true f).fires ≤ f + 1 := by
  cases evs with
  | nil => exact Nat.le_succ f
  | cons e rest =>
    cases e with
    | opDone => exact Nat.le_succ f
    | cancelMsg => simp [workerCancelLoop, workerCancelLoop_taken]

/-- C6: the worker converts broadcast notifications into an at-most-once,
idempotent trigger on its private cancellation token: when a notification is
delivered while the transfer is still running (some `cancelMsg` precedes
`opDone` in the trace), the one-shot `sender.send(())` executes exactly once
over the whole run; on every trace it executes at most once; and once the
raced `op` completes the loop returns immediately, so any notification
arriving after the transfer finished is never processed at all (its send
error, were the receiver gone, is discarded by `_ =` — no error is
surfaced). -/
theorem C6_cancel_token_fires_at_most_once (evs pre post : List WorkerEvt)
    (hsplit : evs = pre ++ .cancelMsg :: post)
    (hpre : WorkerEvt.opDone ∉ pre) :
    (worker_impl_loop evs).fires = 1 ∧
    (∀ evs2, (worker_impl_loop evs2).fires ≤ 1) ∧
    (∀ rest avail f, workerCancelLoop (.opDone :: rest) avail f =
      ⟨avail, f, true⟩) := by
  refine ⟨?_, ?_, fun rest avail f => rfl⟩
  · subst hsplit
    induction pre with
    | nil => simp [worker_impl_loop, workerCancelLoop, workerCancelLoop_taken]
    | cons e pre ih =>
      cases e with
      | opDone => simp at hpre
      | cancelMsg =>
        simp only [List.cons_append, worker_impl_loop, workerCancelLoop]
        exact workerCancelLoop_taken _ _
  · intro evs2
    cases evs2 with
    | nil => exact Nat.zero_le 1
    | cons e rest =>
      cases e with
      | opDone => exact Nat.zero_le 1
      | cancelMsg =>
        simp [worker_impl_loop, workerCancelLoop, workerCancelLoop_taken]

/-- Witness for C6: two notifications followed by the transfer finishing
fire the token exactly once. -/
theorem C6_cancel_token_fires_at_most_once_witness :
    (worker_impl_loop [.cancelMsg, .cancelMsg, .opDone]).fires = 1 :=
  (C6_cancel_token_fires_at_most_once [.cancelMsg, .cancelMsg, .opDone]
    [] [.cancelMsg, .opDone] rfl (by simp)).1

/-- C5 counterexample: the claim says the actor applies every update to its
in-memory mapping. After the actor processes the single request
`UpdateState(https://example.com/a/foo.txt, Completed)`, its retained mapping
holds nothing for that URL — the loop body only logs and acknowledges (the
source comment marks the absent write: "This is where you'd write to a file if
desired") — whereas the spec-modelled actor would map the URL to `Completed`. -/
theorem C5_no_mapping_is_applied :
    storeLookup (DatabaseTask.run [] [⟨urlFooTxt, .Completed⟩]).store urlFooTxt
      = none ∧
    storeLookup (DatabaseTask.run [] [⟨urlFooTxt, .Completed⟩]).store urlFooTxt
      ≠ some .Completed ∧
    storeLookup (specStateStoreRun [] [⟨urlFooTxt, .Completed⟩]).store urlFooTxt
      = some .Completed := by
  refine ⟨rfl, by simp [DatabaseTask.run, storeLookup], rfl⟩

/-- C5 (amended): for every update request it receives, the State Store Actor
logs the update and then signals the acknowledgement — one ack per request —
but applies nothing to any mapping (its retained store is exactly what it
started with), and it terminates its loop exactly when all sender handles
have been dropped (the end of the message sequence), with no other shutdown
signal. -/
theorem C5_actor_acks_logs_and_terminates
    (store : List (Url × DownloadState)) (msgs : List DatabaseMessage) :
    (DatabaseTask.run store msgs).acks = msgs.length ∧
    (DatabaseTask.run store msgs).log = msgs.map (fun m => (m.url, m.state)) ∧
    (DatabaseTask.run store msgs).store = store ∧
    (DatabaseTask.run store msgs).terminated = true := by
  induction msgs with
  | nil => exact ⟨rfl, rfl, rfl, rfl⟩
  | cons m rest ih =>
    obtain ⟨h1, h2, h3, h4⟩ := ih
    exact ⟨by simp [DatabaseTask.run, h1], by simp [DatabaseTask.run, h2],
      by simp [DatabaseTask.run, h3], by simp [DatabaseTask.run, h4]⟩

/-- Closed form of the transfer loop: from any state it appends the processed
chunks to the file and the byte counter, appends one progress observation per
handled tick, sets the flush flag exactly on cancellation, and returns the
result dictated by the first terminal event. -/
theorem dlLoop_eq (evs : List DlEvent) (s : DlState) :
    dlLoop evs s =
      ({ fileContents := s.fileContents ++ dlChunkBytes (dlProcessed evs),
         bytesDownloaded :=
           s.bytesDownloaded + (dlChunkBytes (dlProcessed evs)).length,
         progressLog :=
           s.progressLog ++ dlLogOf evs s.nextTick s.bytesDownloaded,
         nextTick := s.nextTick + dlTickCount evs,
         flushed := s.flushed || decide (dlTerminal evs = some .cancel) },
       dlResultOf (dlTerminal evs)) := by
  induction evs generalizing s with
  | nil =>
    simp [dlLoop, dlProcessed, dlChunkBytes, dlLogOf, dlTickCount, dlTerminal,
      dlResultOf]
  | cons e rest ih =>
    cases e with
    | chunk b =>
      simp [dlLoop, dlProcessed, dlChunkBytes, dlLogOf, dlTickCount,
        dlTerminal, ih, List.append_assoc, Nat.add_assoc]
    | chunkErr msg =>
      simp [dlLoop, dlProcessed, dlChunkBytes, dlLogOf, dlTickCount,
        dlTerminal, dlResultOf]
    | eof =>
      simp [dlLoop, dlProcessed, dlChunkBytes, dlLogOf, dlTickCount,
        dlTerminal, dlResultOf]
    | tick =>
      simp [dlLoop, dlProcessed, dlChunkBytes, dlLogOf, dlTickCount,
        dlTerminal, ih, List.append_assoc, Nat.add_assoc, Nat.add_comm 1]
    | cancel =>
      simp [dlLoop, dlProcessed, dlChunkBytes, dlLogOf, dlTickCount,
        dlTerminal, dlResultOf]

/-- Every progress observation carries a tick number at least as large as the
number of the next tick the loop will see. -/
theorem dlLogOf_fst_ge (evs : List DlEvent) (t bytes : Nat) :
    ∀ p ∈ dlLogOf evs t bytes, t ≤ p.1 := by
  induction evs generalizing t bytes with
  | nil => simp [dlLogOf]
  | cons e rest ih =>
    cases e with
    | chunk b => simpa [dlLogOf] using ih t (bytes + b.length)
    | tick =>
      intro p hp
      simp only [dlLogOf, List.mem_cons] at hp
      cases hp with
      | inl h => exact h ▸ Nat.le_refl t
      | inr h => exact Nat.le_trans (Nat.le_succ t) (ih (t + 1) bytes p h)
    | chunkErr msg => simp [dlLogOf]
    | eof => simp [dlLogOf]
    | cancel => simp [dlLogOf]

/-- C7: the transfer engine truncates the destination on open (its result is
independent of the file's prior contents and the written bytes start from
empty), uses the fixed 1-second progress period and consumes the interval's
immediate tick in setup (so every in-loop observation is at tick number ≥ 1,
i.e. at least one period of real elapsed time); then, on each loop event: a
chunk's bytes are appended to the file and its length added to the byte
counter, end-of-data returns `Completed`, a body-stream error is returned
immediately, each tick appends one progress observation (tick number = elapsed
seconds, cumulative bytes) without terminating, and a cancellation fire sets
the flush/close flag — and only a cancellation does — and returns
`Cancelled`. -/
theorem C7_transfer_engine_loop (priorFile : List Nat) (evs : List DlEvent) :
    download_url_to priorFile evs =
      ({ fileContents := dlChunkBytes (dlProcessed evs),
         bytesDownloaded := (dlChunkBytes (dlProcessed evs)).length,
         progressLog := dlLogOf evs 1 0,
         nextTick := 1 + dlTickCount evs,
         flushed := decide (dlTerminal evs = some .cancel) },
       dlResultOf (dlTerminal evs)) ∧
    download_url_to priorFile evs = download_url_to [] evs ∧
    intervalPeriodSecs = 1 ∧
    ((download_url_to priorFile evs).1.progressLog.all
      fun p => decide (1 ≤ p.1)) = true ∧
    dlResultOf (some .eof) = some (.ok .Completed) ∧
    (∀ msg, dlResultOf (some (.chunkErr msg)) = some (.error msg)) ∧
    dlResultOf (some .cancel) = some (.ok .Cancelled) := by
  refine ⟨?_, rfl, rfl, ?_, rfl, fun msg => rfl, rfl⟩
  · simp only [download_url_to]
    rw [dlLoop_eq]
    simp
  · rw [List.all_eq_true]
    intro p hp
    simp only [download_url_to, dlLoop_eq] at hp
    simp only [List.nil_append] at hp
    exact decide_eq_true (dlLogOf_fst_ge evs 1 0 p hp)

/-- If the trace never delivers an interrupt while no worker is pending, and
no workers are pending, it contains no interrupts at all. -/
theorem orchInterruptCount_zero_of_live (evs : List OrchEvent)
    (hlive : interruptsLive evs 0 = true) : orchInterruptCount evs = 0 := by
  induction evs with
  | nil => rfl
  | cons e rest ih =>
    cases e with
    | workerDone out =>
      simpa [orchInterruptCount] using ih (by simpa [interruptsLive] using hlive)
    | workerPanic =>
      simpa [orchInterruptCount] using ih (by simpa [interruptsLive] using hlive)
    | interrupt => simp [interruptsLive] at hlive

/-- Closed form of the orchestrator's wait loop on traces where every
interrupt arrives while a worker is still pending and enough completions
arrive to drain the join set: the loop breaks normally, having appended
exactly the error-outcome URLs to `failed` and published exactly one signal
per interrupt. -/
theorem orchLoop_run (evs : List OrchEvent) (n : Nat) (failed : List Url)
    (sent : Nat) (hlive : interruptsLive evs n = true)
    (hdone : n ≤ orchDoneCount evs) :
    orchLoop evs n failed sent =
      .normal (failed ++ orchFailedUrls evs n)
        (sent + orchInterruptCount evs) := by
  induction evs generalizing n failed sent with
  | nil =>
    have hn : n = 0 := Nat.le_zero.mp hdone
    subst hn
    simp [orchLoop, orchFailedUrls, orchInterruptCount]
  | cons e rest ih =>
    cases n with
    | zero =>
      cases e with
      | workerDone out =>
        have hz : orchInterruptCount rest = 0 :=
          orchInterruptCount_zero_of_live rest
            (by simpa [interruptsLive] using hlive)
        simp [orchLoop, orchFailedUrls, orchInterruptCount, hz]
      | workerPanic =>
        have hz : orchInterruptCount rest = 0 :=
          orchInterruptCount_zero_of_live rest
            (by simpa [interruptsLive] using hlive)
        simp [orchLoop, orchFailedUrls, orchInterruptCount, hz]
      | interrupt => simp [interruptsLive] at hlive
    | succ m =>
      cases e with
      | workerDone out =>
        have hlive' : interruptsLive rest m = true := by
          simpa [interruptsLive] using hlive
        have hdone' : m ≤ orchDoneCount rest := by
          simp only [orchDoneCount] at hdone
          omega
        cases hr : out.result with
        | ok s =>
          simp [orchLoop, hr, orchFailedUrls, orchInterruptCount,
            ih m failed sent hlive' hdone']
        | error err =>
          simp [orchLoop, hr, orchFailedUrls, orchInterruptCount,
            ih m (failed ++ [out.url]) sent hlive' hdone']
      | workerPanic =>
        have hlive' : interruptsLive rest m = true := by
          simpa [interruptsLive] using hlive
        have hdone' : m ≤ orchDoneCount rest := by
          simp only [orchDoneCount] at hdone
          omega
        simp [orchLoop, orchFailedUrls, orchInterruptCount,
          ih m failed sent hlive' hdone']
      | interrupt =>
        have hlive' : interruptsLive rest (m + 1) = true := by
          simpa [interruptsLive] using hlive
        have hdone' : m + 1 ≤ orchDoneCount rest := by
          simpa [orchDoneCount] using hdone
        have := ih (m + 1) failed (sent + 1) hlive' hdone'
        simp only [orchLoop, this, orchFailedUrls, orchInterruptCount]
        exact congrArg _ (by omega)

/-- C3 counterexample: the claim says an interrupt never causes an early
return and the loop always proceeds to await state-store shutdown. With one
worker, the trace "worker completes, then Ctrl-C arrives" makes
`sender.send(..)` fail (the finished worker's broadcast receiver was dropped,
so no receivers remain) and `?` returns that error from `exec` immediately:
no cancellation signal is published for the interrupt and the database task
is never awaited. -/
theorem C3_interrupt_after_drain_returns_early :
    orchLoop [.workerDone ⟨urlFooTxt, "/out", .ok .Completed⟩, .interrupt]
        1 [] 0 = .sendErr [] 0 ∧
    orchSent (orchLoop
        [.workerDone ⟨urlFooTxt, "/out", .ok .Completed⟩, .interrupt]
        1 [] 0) = 0 ∧
    execAwaitsDb (orchLoop
        [.workerDone ⟨urlFooTxt, "/out", .ok .Completed⟩, .interrupt]
        1 [] 0) = false ∧
    execReturn (orchLoop
        [.workerDone ⟨urlFooTxt, "/out", .ok .Completed⟩, .interrupt]
        1 [] 0) = .error "channel closed" :=
  ⟨rfl, rfl, rfl, rfl⟩

/-- C3 (amended): provided every interrupt arrives while at least one worker
is still pending (so the broadcast has a live receiver), the orchestrator
publishes exactly one cancellation signal per interrupt and never returns
early: it keeps waiting until every spawned worker has been joined, only then
exits the wait loop normally, awaits state-store shutdown and returns
`Ok(())`. (An interrupt arriving after all workers finished instead makes the
broadcast publish fail and the orchestrator return that error at once,
skipping the state-store await.) -/
theorem C3_one_signal_per_interrupt_no_early_return (evs : List OrchEvent)
    (n : Nat) (hlive : interruptsLive evs n = true)
    (hdone : n ≤ orchDoneCount evs) :
    orchLoop evs n [] 0 =
      .normal (orchFailedUrls evs n) (orchInterruptCount evs) ∧
    orchSent (orchLoop evs n [] 0) = orchInterruptCount evs ∧
    execAwaitsDb (orchLoop evs n [] 0) = true ∧
    execReturn (orchLoop evs n [] 0) = .ok () := by
  have h := orchLoop_run evs n [] 0 hlive hdone
  simp only [List.nil_append, Nat.zero_add] at h
  exact ⟨h, by rw [h]; rfl, by rw [h]; rfl, by rw [h]; rfl⟩

/-- Witness for C3: one worker, interrupted once while it is still running;
the run ends normally with one published signal. -/
theorem C3_one_signal_per_interrupt_no_early_return_witness :
    orchLoop [.interrupt, .workerDone ⟨urlFooTxt, "/out", .ok .Completed⟩]
        1 [] 0 = .normal [] 1 :=
  (C3_one_signal_per_interrupt_no_early_return
    [.interrupt, .workerDone ⟨urlFooTxt, "/out", .ok .Completed⟩]
    1 (by decide) (by decide)).1

/-- C8 counterexample: the claim says the orchestrator run returns the set of
URLs whose outcome was an error. Two one-worker runs — one whose download
fails, one whose download succeeds — have different failed sets (`[url]` vs
`[]`) yet `exec` returns the identical value `Ok(())` in both: the failed set
is not part of (nor recoverable from) the return value. -/
theorem C8_failed_set_not_returned :
    DownloadArgs.exec [⟨urlFooTxt, none⟩]
        [.workerDone ⟨urlFooTxt, "/out", .error (.transfer "unreachable")⟩] =
      DownloadArgs.exec [⟨urlFooTxt, none⟩]
        [.workerDone ⟨urlFooTxt, "/out", .ok .Completed⟩] ∧
    DownloadArgs.exec [⟨urlFooTxt, none⟩]
        [.workerDone ⟨urlFooTxt, "/out", .error (.transfer "unreachable")⟩] =
      .ok () ∧
    orchFailed (orchLoop
        [.workerDone ⟨urlFooTxt, "/out", .error (.transfer "unreachable")⟩]
        1 [] 0) = [urlFooTxt] ∧
    orchFailed (orchLoop
        [.workerDone ⟨urlFooTxt, "/out", .ok .Completed⟩] 1 [] 0) = [] ∧
    [urlFooTxt] ≠ ([] : List Url) := by
  refine ⟨rfl, rfl, rfl, rfl, by simp⟩

/-- C8 (amended): the orchestrator computes the failed set internally — at
the end of the wait loop its `failed` vector holds exactly the URLs of the
outcomes that were errors — but that set is only logged, never returned:
`exec`'s return value on such a run is `Ok(())`. -/
theorem C8_failed_computed_internally_returned_unit (evs : List OrchEvent)
    (n : Nat) (hlive : interruptsLive evs n = true)
    (hdone : n ≤ orchDoneCount evs) :
    orchFailed (orchLoop evs n [] 0) = orchFailedUrls evs n ∧
    execReturn (orchLoop evs n [] 0) = .ok () := by
  have h := orchLoop_run evs n [] 0 hlive hdone
  simp only [List.nil_append, Nat.zero_add] at h
  exact ⟨by rw [h]; rfl, by rw [h]; rfl⟩

/-- Witness for C8: a run with one failing download ends with `failed` equal
to that download's URL while `exec` still returns `Ok(())`. -/
theorem C8_failed_computed_internally_returned_unit_witness :
    orchFailed (orchLoop
        [.workerDone ⟨urlFooTxt, "/out", .error (.transfer "unreachable")⟩]
        1 [] 0) = [urlFooTxt] ∧
    execReturn (orchLoop
        [.workerDone ⟨urlFooTxt, "/out", .error (.transfer "unreachable")⟩]
        1 [] 0) = .ok () :=
  C8_failed_computed_internally_returned_unit
    [.workerDone ⟨urlFooTxt, "/out", .error (.transfer "unreachable")⟩]
    1 (by decide) (by decide)

end DownloadManager
